import Mathlib

/-!
Verification of the supply-chain conversational backend (logistics pipeline).

The development shallowly embeds the parts of the repository that the
checked properties are about:

* `app/agents/logistics_action_agent.py` — the Actor: dispatch over the
  four operations (`query` / `modify` / `modify_node` / `insert`), the
  per-operation parameter validation, the outbound payload construction
  and the simulated / real API result handling;
* `app/services/logistics_service.py` — `LogisticsService.chat`, the
  orchestrator: stage sequencing, the intent gate in front of the Actor,
  the top-level exception envelope and the memory write;
* `app/services/session_manager.py` — `SessionManager.add_message` /
  `get_session_history` over the keyed append log.

Python dictionary values are modelled with a small JSON value type
`JVal`; a field read `d.get(k)` on a command dictionary becomes an
`Option String` field (an absent key and an explicit `null` value are
identified).  Python truthiness on such a field (`if not x`) is
`truthy`: present and non-empty.  Outbound HTTP calls are recorded in an
explicit call list instead of performing I/O; the upstream responses the
code would parse are supplied by an `UpstreamEnv`.
-/

/-- JSON-like values, modelling the Python dictionaries the agents build
and parse. -/
inductive JVal where
  | jnull : JVal
  | jbool : Bool → JVal
  | jstr : String → JVal
  | jobj : List (String × JVal) → JVal
  | jarr : List JVal → JVal

/-- First-match field lookup in a JSON object (Python dict access;
keys built by the code are unique). -/
def JVal.getField : JVal → String → Option JVal
  | .jobj fs, k => (fs.find? (fun p => p.1 == k)).map (fun p => p.2)
  | _, _ => none

/-- Lookup in a raw payload association list (the dict handed to
`httpx` as the JSON body). -/
def jlookup (fs : List (String × JVal)) (k : String) : Option JVal :=
  (fs.find? (fun p => p.1 == k)).map (fun p => p.2)

/-- A Python `Optional[str]` value as a JSON value (`None` serializes to
`null`). -/
def optJ : Option String → JVal
  | none => .jnull
  | some s => .jstr s

/-- Python truthiness of an optional string: `if x:` is true exactly
when the value is present and non-empty. -/
def truthy : Option String → Bool
  | none => false
  | some s => s ≠ ""

/-- Python `str(x)` on an optional string (`str(None) = "None"`), used
where the source interpolates a possibly-missing value. -/
def pyStrOpt : Option String → String
  | none => "None"
  | some s => s

/-- The command dictionary handed to the Actor (`json.loads` of the
orchestrator's `action_content`); every field is read with `.get`, so
each is optional. -/
structure ActionCommand where
  action : Option String := none
  session_id : Option String := none
  order_id : Option String := none
  order_number : Option String := none
  transport_status_name : Option String := none
  tracking_id : Option String := none
  node_location : Option String := none
  status_description : Option String := none
  operator : Option String := none
  vehicle_plate : Option String := none
  occurred_at_str : Option String := none
  remark : Option String := none
  content : Option String := none
deriving DecidableEq, Repr

/-- Outbound business-API calls made by the Actor (recorded instead of
performed). -/
inductive OutboundCall where
  | getOrderInfo : String → OutboundCall
  | updateLogisticsTrackInfo : List (String × JVal) → OutboundCall
  | insertLogisticsTrackInfo : List (String × JVal) → OutboundCall

/-- Parsed JSON responses of the external business system, as the code
would obtain them from `response.json()`. -/
structure UpstreamEnv where
  queryResponse : JVal
  insertResponse : JVal
  /-- Body of the `updateLogisticsTrackInfo` HTTP response; the source
  never parses it (`return response.json()` is commented out). -/
  modifyNodeHttpResponse : JVal

/-- `{"success": False, "error": msg}` — the validation-failure result
shape used throughout the Actor. -/
def errJson (msg : String) : JVal :=
  .jobj [("success", .jbool false), ("error", .jstr msg)]

/-- One character of Python's `\d` (restricted to ASCII digits; the
checked inputs are ASCII). -/
def isDigitChar (c : Char) : Bool := c.isDigit

/-- The ten-character core of the pattern `\d{4}-\d{2}-\d{2}`. -/
def dateCore : List Char → Bool
  | [a, b, c, d, e, f, g, h, i, j] =>
      isDigitChar a && isDigitChar b && isDigitChar c && isDigitChar d &&
      e == '-' && isDigitChar f && isDigitChar g && h == '-' &&
      isDigitChar i && isDigitChar j
  | _ => false

/-- Python `re.match(r'^\d{4}-\d{2}-\d{2}$', s)`: the anchored pattern,
where Python's `$` also matches just before one trailing newline. -/
def pyFullMatchDate (s : String) : Bool :=
  dateCore s.data ||
    (match s.data.getLast? with
     | some c => c == '\n' && dateCore s.data.dropLast
     | none => false)

example : pyFullMatchDate "2024-01-13" = true := by decide
example : pyFullMatchDate "2024-01-13\n" = true := by decide
example : pyFullMatchDate "2024/01/13" = false := by decide
example : pyFullMatchDate "" = false := by decide

/-!
## The Actor — `app/agents/logistics_action_agent.py`
-/

/-- `LogisticsActionAgent._execute_modify`'s fixed list of legal
transport statuses. -/
def valid_statuses : List String := ["待提货", "运输中", "已送达", "已回单", "异常滞留"]

/-- Simulated return value of `_api_modify_logistics` (its real HTTP
call is commented out in the source, so no outbound call is made). -/
def api_modify_logistics (session_id order_id order_number transport_status_name :
    Option String) : JVal :=
  .jobj [("success", .jbool true),
         ("session_id", optJ session_id),
         ("order_id", optJ order_id),
         ("order_number", optJ order_number),
         ("transport_status_name", optJ transport_status_name),
         ("message", .jstr ("物流状态已更新为: " ++ pyStrOpt transport_status_name)),
         ("updated_at", .jstr "2024-01-13 16:00")]

/-- The JSON body `_api_modify_logistics_node` posts to
`updateLogisticsTrackInfo`: the four identifiers always, each optional
field only when truthy (`if status_description:` etc.). -/
def modifyNodePayload (order_id session_id tracking_id location status_description
    operator vehicle_plate occurred_at_str remark content : Option String) :
    List (String × JVal) :=
  [("orderId", optJ order_id),
   ("sessionId", optJ session_id),
   ("id", optJ tracking_id),
   ("location", optJ location)]
  ++ (if truthy status_description then [("statusDescription", optJ status_description)] else [])
  ++ (if truthy operator then [("operator", optJ operator)] else [])
  ++ (if truthy vehicle_plate then [("vehiclePlate", optJ vehicle_plate)] else [])
  ++ (if truthy occurred_at_str then [("occurredAtStr", optJ occurred_at_str)] else [])
  ++ (if truthy remark then [("remark", optJ remark)] else [])
  ++ (if truthy content then [("content", optJ content)] else [])

/-- The simulated dictionary `_api_modify_logistics_node` returns,
built from its arguments only. -/
def modifyNodeSimulated (order_id session_id tracking_id location status_description
    operator vehicle_plate occurred_at_str remark content : Option String) : JVal :=
  .jobj [("success", .jbool true),
         ("order_id", optJ order_id),
         ("session_id", optJ session_id),
         ("tracking_id", optJ tracking_id),
         ("location", optJ location),
         ("status_description", optJ status_description),
         ("operator", optJ operator),
         ("vehicle_plate", optJ vehicle_plate),
         ("occurred_at_str", optJ occurred_at_str),
         ("remark", optJ remark),
         ("content", optJ content),
         ("message", .jstr ("物流节点已更新: " ++ pyStrOpt location)),
         ("updated_at", .jstr "2024-01-13 16:00")]

/-- `_api_modify_logistics_node`: posts the payload, then — because the
`return response.json()` line is commented out in the source — falls
through to the simulated return built from the arguments.  The HTTP
response body in `env` is never read. -/
def api_modify_logistics_node (env : UpstreamEnv) (order_id session_id tracking_id
    location status_description operator vehicle_plate occurred_at_str remark content :
    Option String) : JVal × List OutboundCall :=
  let payload := modifyNodePayload order_id session_id tracking_id location
      status_description operator vehicle_plate occurred_at_str remark content
  (modifyNodeSimulated order_id session_id tracking_id location
      status_description operator vehicle_plate occurred_at_str remark content,
   [OutboundCall.updateLogisticsTrackInfo payload])

/-- The JSON body `_api_insert_logistics_node` posts to
`insertLogisticsTrackInfo`. -/
def insertPayload (order_id session_id status_description location occurred_at_str
    operator vehicle_plate remark content : Option String) : List (String × JVal) :=
  [("orderId", optJ order_id),
   ("sessionId", optJ session_id),
   ("statusDescription", optJ status_description),
   ("location", optJ location),
   ("occurredAtStr", optJ occurred_at_str)]
  ++ (if truthy operator then [("operator", optJ operator)] else [])
  ++ (if truthy vehicle_plate then [("vehiclePlate", optJ vehicle_plate)] else [])
  ++ (if truthy remark then [("remark", optJ remark)] else [])
  ++ (if truthy content then [("content", optJ content)] else [])

/-- The simulated dictionary in the unreachable tail of
`_api_insert_logistics_node`, with its locally synthesized
`node_id = "NODE_" + str(hash(location + occurred_at_str))`. -/
def insertSimulated (order_id status_description location occurred_at_str
    operator vehicle_plate remark content : Option String) (node_id : String) : JVal :=
  .jobj [("success", .jbool true),
         ("order_id", optJ order_id),
         ("status_description", optJ status_description),
         ("location", optJ location),
         ("occurred_at_str", optJ occurred_at_str),
         ("operator", optJ operator),
         ("vehicle_plate", optJ vehicle_plate),
         ("remark", optJ remark),
         ("content", optJ content),
         ("node_id", .jstr node_id),
         ("message", .jstr ("已插入新节点: " ++ pyStrOpt location)),
         ("inserted_at", .jstr "2024-01-13 16:00")]

/-- Straight-line statements of an API-method body; `ret…` statements
model Python `return` (execution stops there). -/
inductive ApiStmt where
  | post : OutboundCall → ApiStmt
  | retJson : JVal → ApiStmt
  | retSimulatedInsert : Option String → Option String → Option String → Option String →
      Option String → Option String → Option String → Option String → ApiStmt

/-- Execution state of an API-method body: the outbound calls made, and
whether the hash-based node identifier was synthesized. -/
structure ApiRunState where
  calls : List OutboundCall := []
  nodeIdSynthesized : Bool := false

/-- Run a statement list in order; a `return` stops execution, so
statements after it are dead code.  The hash-based node identifier is
computed (and flagged) only if `retSimulatedInsert` is reached. -/
def runApiStmts (hashFn : String → Int) :
    List ApiStmt → ApiRunState → Option JVal × ApiRunState
  | [], s => (none, s)
  | ApiStmt.post c :: rest, s =>
      runApiStmts hashFn rest { s with calls := s.calls ++ [c] }
  | ApiStmt.retJson v :: _, s => (some v, s)
  | ApiStmt.retSimulatedInsert oid sd loc oas op vp rm ct :: _, s =>
      (some (insertSimulated oid sd loc oas op vp rm ct
               ("NODE_" ++ toString (hashFn (pyStrOpt loc ++ pyStrOpt oas)))),
       { s with nodeIdSynthesized := true })

/-- The body of `_api_insert_logistics_node` as its statement list: the
POST, the `return response.json()`, and — after that return, hence
unreachable — the simulated-data return with the synthesized node id. -/
def api_insert_logistics_node_body (env : UpstreamEnv) (order_id status_description
    location occurred_at_str session_id operator vehicle_plate remark content :
    Option String) : List ApiStmt :=
  [ApiStmt.post (OutboundCall.insertLogisticsTrackInfo
      (insertPayload order_id session_id status_description location occurred_at_str
        operator vehicle_plate remark content)),
   ApiStmt.retJson env.insertResponse,
   ApiStmt.retSimulatedInsert order_id status_description location occurred_at_str
     operator vehicle_plate remark content]

/-- `_api_insert_logistics_node`: run the body; a body falling off the
end would yield Python `None` (`jnull`). -/
def api_insert_logistics_node (env : UpstreamEnv) (hashFn : String → Int)
    (order_id status_description location occurred_at_str session_id
     operator vehicle_plate remark content : Option String) : JVal × ApiRunState :=
  let (r, s) := runApiStmts hashFn
    (api_insert_logistics_node_body env order_id status_description location
      occurred_at_str session_id operator vehicle_plate remark content) {}
  (r.getD .jnull, s)

/-- `LogisticsActionAgent._execute_query`: requires a truthy order
number, then calls `getOrderInfo` and wraps the parsed response. -/
def execute_query (env : UpstreamEnv) (order_number : Option String) :
    JVal × List OutboundCall :=
  if ¬ truthy order_number then
    (errJson "缺少订单号", [])
  else
    (.jobj [("action", .jstr "query"),
            ("success", .jbool true),
            ("data", env.queryResponse)],
     [OutboundCall.getOrderInfo (pyStrOpt order_number)])

/-- `LogisticsActionAgent._execute_modify`: identifier check, status
presence check, enum check, then the (simulated, call-free)
`_api_modify_logistics` and the result wrapper. -/
def execute_modify (order_number_arg : Option String) (data : ActionCommand) :
    JVal × List OutboundCall :=
  let session_id := data.session_id
  let order_id := data.order_id
  let order_number :=
    if truthy data.order_number then data.order_number else order_number_arg
  let transport_status_name := data.transport_status_name
  if ¬ truthy order_id ∧ ¬ truthy order_number then
    (errJson "缺少订单标识（order_id 或 order_number）", [])
  else if ¬ truthy transport_status_name then
    (errJson "缺少运输状态（transport_status_name）", [])
  else if pyStrOpt transport_status_name ∉ valid_statuses then
    (errJson ("无效的运输状态，可选值: " ++ String.intercalate ", " valid_statuses), [])
  else
    let result := api_modify_logistics session_id order_id order_number
        transport_status_name
    (.jobj [("action", .jstr "modify"),
            ("success", (result.getField "success").getD (.jbool true)),
            ("message", (result.getField "message").getD (.jstr "修改完成")),
            ("data", result)],
     [])

/-- `LogisticsActionAgent._execute_modify_node`: requires `order_id`,
`session_id`, `tracking_id` and `node_location`, re-validates the date
format of a truthy `occurred_at_str`, then calls
`_api_modify_logistics_node` and wraps its result. -/
def execute_modify_node (env : UpstreamEnv) (data : ActionCommand) :
    JVal × List OutboundCall :=
  if ¬ truthy data.order_id then
    (errJson "缺少订单ID（order_id）", [])
  else if ¬ truthy data.session_id then
    (errJson "缺少会话ID（session_id）", [])
  else if ¬ truthy data.tracking_id then
    (errJson "缺少物流轨迹ID（tracking_id）", [])
  else if ¬ truthy data.node_location then
    (errJson "缺少发生地点（node_location）", [])
  else if truthy data.occurred_at_str ∧
      ¬ pyFullMatchDate (pyStrOpt data.occurred_at_str) then
    (errJson "日期格式错误，应为 yyyy-MM-dd 格式", [])
  else
    let (result, calls) := api_modify_logistics_node env data.order_id
        data.session_id data.tracking_id data.node_location data.status_description
        data.operator data.vehicle_plate data.occurred_at_str data.remark data.content
    (.jobj [("action", .jstr "modify_node"),
            ("success", (result.getField "success").getD (.jbool true)),
            ("message", (result.getField "message").getD (.jstr "物流节点修改完成")),
            ("data", result)],
     calls)

/-- `LogisticsActionAgent._execute_insert`: the four required-field
checks, the date-format check, then `_api_insert_logistics_node` and
the result wrapper.  The third component records whether the hash-based
node identifier was synthesized anywhere during the run. -/
def execute_insert (env : UpstreamEnv) (hashFn : String → Int)
    (data : ActionCommand) : JVal × List OutboundCall × Bool :=
  if ¬ truthy data.order_id then
    (errJson "缺少订单唯一ID（order_id）", [], false)
  else if ¬ truthy data.status_description then
    (errJson "缺少物流状态描述（status_description）", [], false)
  else if ¬ truthy data.node_location then
    (errJson "缺少发生地点（node_location）", [], false)
  else if ¬ truthy data.occurred_at_str then
    (errJson "缺少发生时间（occurred_at_str）", [], false)
  else if ¬ pyFullMatchDate (pyStrOpt data.occurred_at_str) then
    (errJson "日期格式错误，应为 yyyy-MM-dd 格式", [], false)
  else
    let (result, st) := api_insert_logistics_node env hashFn data.order_id
        data.status_description data.node_location data.occurred_at_str
        data.session_id data.operator data.vehicle_plate data.remark data.content
    (.jobj [("action", .jstr "insert"),
            ("success", (result.getField "success").getD (.jbool true)),
            ("message", (result.getField "message").getD (.jstr "物流节点插入完成")),
            ("data", result)],
     st.calls, st.nodeIdSynthesized)

/-- `LogisticsActionAgent.reply`: dispatch on `data.get("action")`.
Returns the result dictionary, the outbound calls made, and whether the
hash-based node id was synthesized. -/
def actorReply (env : UpstreamEnv) (hashFn : String → Int) (data : ActionCommand) :
    JVal × List OutboundCall × Bool :=
  if data.action = some "query" then
    let (r, cs) := execute_query env data.order_number
    (r, cs, false)
  else if data.action = some "modify" then
    let (r, cs) := execute_modify data.order_number data
    (r, cs, false)
  else if data.action = some "modify_node" then
    let (r, cs) := execute_modify_node env data
    (r, cs, false)
  else if data.action = some "insert" then
    execute_insert env hashFn data
  else
    (.jobj [("success", .jbool false),
            ("error", .jstr ("未知操作类型: " ++ pyStrOpt data.action))],
     [], false)

/-!
## The orchestrator — `LogisticsService.chat` in
`app/services/logistics_service.py`
-/

/-- The reasoning stage's structured output (`reasoning_msg.metadata`),
with the fields `chat` reads from it.  `confidence` is the model's
score in `[0,1]`, represented as a rational. -/
structure ReasoningResult where
  intent : Option String := none
  modify_type : Option String := none
  order_id : Option String := none
  order_number : Option String := none
  transport_status_name : Option String := none
  tracking_id : Option String := none
  node_location : Option String := none
  status_description : Option String := none
  operator : Option String := none
  vehicle_plate : Option String := none
  occurred_at_str : Option String := none
  remark : Option String := none
  content : Option String := none
  confidence : ℚ := 0

/-- A message appended to the session memory
(`Msg(name=…, content=…, role=…)`). -/
structure MemMsg where
  name : String
  role : String
  content : String
deriving DecidableEq, Repr

/-- Behaviour of the surrounding stages for one request.  Each stage is
an `Except`: `.error e` models the stage raising an exception whose
`str(e)` is `e`.  `setup` covers the code `chat` runs before its
`try` block (`LogisticsService.initialize()`, `agentscope.init(...)`,
memory and agent construction). -/
structure StageEnv where
  setup : Except String Unit
  perceive : Except String JVal
  reason : Except String ReasoningResult
  dialogReply : Except String String
  memoryAddOk : Except String Unit
  api : UpstreamEnv
  hashFn : String → Int

/-- The envelope `chat` returns: `success`, `message`, and the `data`
dictionary (either the success shape with `session_id` / `intent` /
`perception` / `execution`, or the failure shape with `error`). -/
structure ChatEnvelope where
  success : Bool
  message : String
  dataSessionId : Option String := none
  dataIntent : Option String := none
  dataPerception : Option JVal := none
  dataExecution : Option JVal := none
  dataError : Option String := none

/-- Observable outcome of one `chat` request: the envelope, whether the
Actor was invoked, the messages appended to this session's memory, and
the outbound business calls made. -/
structure ChatOutcome where
  envelope : ChatEnvelope
  actorInvoked : Bool
  memoryAppends : List MemMsg
  calls : List OutboundCall

/-- The intents for which `chat` enters the execution step
(`if intent in ["query", "modify", "modify_node", "insert"]`). -/
def chatDispatchIntents : List String := ["query", "modify", "modify_node", "insert"]

/-- The `action_content` dictionary `chat` builds from the reasoning
result (the `modify_node` branch is selected by `modify_type`, the
`insert` branch by the intent, the rest carry the query/modify fields;
the query/modify branch's constant `new_info: {}` entry is dropped here
because the Actor never reads it). -/
def buildActionContent (session_id : String) (r : ReasoningResult) (intent : String) :
    ActionCommand :=
  if r.modify_type = some "modify_node" then
    { action := some "modify_node",
      session_id := some session_id,
      order_id := r.order_id,
      tracking_id := r.tracking_id,
      node_location := r.node_location,
      status_description := r.status_description,
      operator := r.operator,
      vehicle_plate := r.vehicle_plate,
      occurred_at_str := r.occurred_at_str,
      remark := r.remark,
      content := r.content }
  else if intent = "insert" then
    { action := some "insert",
      session_id := some session_id,
      order_id := r.order_id,
      node_location := r.node_location,
      occurred_at_str := r.occurred_at_str,
      status_description := r.status_description,
      operator := r.operator,
      vehicle_plate := r.vehicle_plate,
      remark := r.remark,
      content := r.content }
  else
    { action := some intent,
      session_id := some session_id,
      order_id := r.order_id,
      order_number := r.order_number,
      transport_status_name := r.transport_status_name }

/-- The `except` branch of `chat`: success `False`, an apology carrying
`str(e)`, and `data = {'error': str(e)}`. -/
def chatErrEnvelope (e : String) : ChatEnvelope :=
  { success := false,
    message := "抱歉，处理您的请求时遇到了问题: " ++ e,
    dataError := some e }

/-- Step 3 of `chat`: the intent gate and, when it opens, the command
construction and the Actor invocation.  Returns the execution result
(absent when the gate stays closed), whether the Actor was invoked, and
the outbound calls made. -/
def chatStep3 (env : StageEnv) (session_id : String) (r : ReasoningResult) :
    Option JVal × Bool × List OutboundCall :=
  let intent := r.intent.getD "unknown"
  if intent ∈ chatDispatchIntents then
    let (res, cs, _synth) := actorReply env.api env.hashFn
        (buildActionContent session_id r intent)
    (some res, true, cs)
  else
    (none, false, [])

/-- The body of `chat`'s `try` block: perceive, reason, the gated
execution step, the dialog reply, and the memory write; a raising stage
aborts the remaining stages and yields the apology envelope.  The only
memory write is the assistant reply at the end (the user-message
`memory.add` is commented out in the source). -/
def chatTryBody (env : StageEnv) (session_id : String) : ChatOutcome :=
  match env.perceive with
  | .error e =>
      { envelope := chatErrEnvelope e, actorInvoked := false,
        memoryAppends := [], calls := [] }
  | .ok perception =>
    match env.reason with
    | .error e =>
        { envelope := chatErrEnvelope e, actorInvoked := false,
          memoryAppends := [], calls := [] }
    | .ok r =>
      let s3 := chatStep3 env session_id r
      match env.dialogReply with
      | .error e =>
          { envelope := chatErrEnvelope e, actorInvoked := s3.2.1,
            memoryAppends := [], calls := s3.2.2 }
      | .ok reply =>
        match env.memoryAddOk with
        | .error e =>
            { envelope := chatErrEnvelope e, actorInvoked := s3.2.1,
              memoryAppends := [], calls := s3.2.2 }
        | .ok _ =>
            { envelope :=
                { success := true,
                  message := reply,
                  dataSessionId := some session_id,
                  dataIntent := some (r.intent.getD "unknown"),
                  dataPerception := some perception,
                  dataExecution := s3.1 },
              actorInvoked := s3.2.1,
              memoryAppends := [⟨"assistant", "assistant", reply⟩],
              calls := s3.2.2 }

/-- `LogisticsService.chat`.  The pre-`try` setup runs first and its
exception propagates to the caller (`Except.error`); the `try` block
body never raises. -/
def chat (env : StageEnv) (session_id : String) : Except String ChatOutcome :=
  match env.setup with
  | .error e => .error e
  | .ok _ => .ok (chatTryBody env session_id)

/-- The first exception raised inside `chat`'s `try` block, following
the stage order of the source (the Actor catches its own exceptions and
never raises). -/
def firstStageError (env : StageEnv) : Option String :=
  match env.perceive with
  | .error e => some e
  | .ok _ =>
    match env.reason with
    | .error e => some e
    | .ok _ =>
      match env.dialogReply with
      | .error e => some e
      | .ok _ =>
        match env.memoryAddOk with
        | .error e => some e
        | .ok _ => none

/-!
## Session memory — `app/services/session_manager.py`
-/

/-- Modelled from the spec: the backing store of
`AsyncSQLAlchemyMemory` (the external `agentscope` library, not under
`src/`).  Per the spec, SessionMemory is a "per-(user, session)
ordered message log with append, read-all, and clear operations",
keyed by `(user_id, session_id)`: `memory.add` appends to the keyed
log, `memory.get_memory` returns it in order. -/
def SessionStore : Type := String × String → List MemMsg

/-- `SessionManager.add_message(session_id, msg, user_id)`: obtain the
memory for `(user_id, session_id)` and append `msg` to its log. -/
def add_message (st : SessionStore) (session_id : String) (msg : MemMsg)
    (user_id : String) : SessionStore :=
  fun k => if k = (user_id, session_id) then st k ++ [msg] else st k

/-- `SessionManager.get_session_history(session_id, user_id)`: read the
keyed log in order. -/
def get_session_history (st : SessionStore) (session_id user_id : String) :
    List MemMsg :=
  st (user_id, session_id)

/-- Appending a sequence of messages to one session in order
(`add_message` iterated). -/
def add_messages (st : SessionStore) (session_id : String) (msgs : List MemMsg)
    (user_id : String) : SessionStore :=
  msgs.foldl (fun acc m => add_message acc session_id m user_id) st

/-!
## Shared concrete sample values (used by witnesses and counterexamples)
-/

/-- A concrete external-system environment. -/
def sampleUpstream : UpstreamEnv :=
  { queryResponse := .jobj [("orderNo", .jstr "order1234567890"),
                            ("status", .jstr "运输中")],
    insertResponse := .jobj [("success", .jbool true), ("id", .jstr "TRK900")],
    modifyNodeHttpResponse := .jobj [("ack", .jbool true)] }

/-- A concrete stand-in for Python's (process-randomized) string hash. -/
def sampleHash : String → Int := fun s => (s.length : Int)

/-- The empty session store. -/
def emptyStore : SessionStore := fun _ => []

/-!
## Theorems
-/

/-- Reading a session after appending a batch of messages yields the
old history followed by the batch, in order. -/
theorem get_session_history_add_messages (session_id user_id : String)
    (ms : List MemMsg) :
    ∀ st : SessionStore,
      get_session_history (add_messages st session_id ms user_id) session_id user_id =
        get_session_history st session_id user_id ++ ms := by
  induction ms with
  | nil => intro st; simp [add_messages, get_session_history]
  | cons m rest ih =>
      intro st
      have h1 : add_messages st session_id (m :: rest) user_id =
          add_messages (add_message st session_id m user_id) session_id rest user_id := rfl
      rw [h1, ih]
      simp [get_session_history, add_message]

/-- Claim C8: for every session key `(user_id, session_id)` and every
sequence of `N` messages, appending the `N` messages via `add_message`
and then reading via `get_session_history` returns exactly those `N`
messages, in append order (starting from a session whose history is
empty). -/
theorem c8_session_roundtrip (st : SessionStore) (session_id user_id : String)
    (ms : List MemMsg)
    (h : get_session_history st session_id user_id = []) :
    get_session_history (add_messages st session_id ms user_id) session_id user_id = ms := by
  rw [get_session_history_add_messages, h, List.nil_append]

/-- Witness for C8 at a concrete store, key and two-message batch. -/
theorem c8_session_roundtrip_witness :
    get_session_history emptyStore "s1" "default" = [] ∧
    get_session_history
        (add_messages emptyStore "s1"
          [⟨"user", "user", "查一下 order1234567890"⟩,
           ⟨"assistant", "assistant", "好的，已查询"⟩] "default")
        "s1" "default" =
      [⟨"user", "user", "查一下 order1234567890"⟩,
       ⟨"assistant", "assistant", "好的，已查询"⟩] :=
  ⟨rfl, c8_session_roundtrip emptyStore "s1" "default" _ rfl⟩

/-- The insert handler's error message for each missing required field,
paired with the fact that the field really is missing. -/
def insertErrorNamesMissingField (data : ActionCommand) (emsg : String) : Prop :=
  (emsg = "缺少订单唯一ID（order_id）" ∧ truthy data.order_id = false) ∨
  (emsg = "缺少物流状态描述（status_description）" ∧ truthy data.status_description = false) ∨
  (emsg = "缺少发生地点（node_location）" ∧ truthy data.node_location = false) ∨
  (emsg = "缺少发生时间（occurred_at_str）" ∧ truthy data.occurred_at_str = false)

/-- Claim C3: for every insert command whose `occurred_at_str` does not
match `^\d{4}-\d{2}-\d{2}$` (including when it is missing), the insert
handler returns `success=false` with an error mentioning the date
format or naming a genuinely missing field, and no outbound
business-API call is made. -/
theorem c3_insert_bad_date_rejected (env : UpstreamEnv) (hashFn : String → Int)
    (data : ActionCommand)
    (h : ¬ (truthy data.occurred_at_str = true ∧
            pyFullMatchDate (pyStrOpt data.occurred_at_str) = true)) :
    (execute_insert env hashFn data).1.getField "success" = some (.jbool false) ∧
    (execute_insert env hashFn data).2.1 = [] ∧
    (execute_insert env hashFn data).2.2 = false ∧
    ((execute_insert env hashFn data).1.getField "error" =
        some (.jstr "日期格式错误，应为 yyyy-MM-dd 格式") ∨
     ∃ emsg, (execute_insert env hashFn data).1.getField "error" =
        some (.jstr emsg) ∧ insertErrorNamesMissingField data emsg) := by
  unfold execute_insert
  by_cases h1 : truthy data.order_id = true
  · by_cases h2 : truthy data.status_description = true
    · by_cases h3 : truthy data.node_location = true
      · by_cases h4 : truthy data.occurred_at_str = true
        · have h5 : ¬ pyFullMatchDate (pyStrOpt data.occurred_at_str) = true :=
            fun hm => h ⟨h4, hm⟩
          rw [if_neg (fun hc => hc h1), if_neg (fun hc => hc h2),
              if_neg (fun hc => hc h3), if_neg (fun hc => hc h4), if_pos h5]
          exact ⟨rfl, rfl, rfl, Or.inl rfl⟩
        · rw [if_neg (fun hc => hc h1), if_neg (fun hc => hc h2),
              if_neg (fun hc => hc h3), if_pos h4]
          exact ⟨rfl, rfl, rfl,
            Or.inr ⟨_, rfl, Or.inr (Or.inr (Or.inr ⟨rfl, by simpa using h4⟩))⟩⟩
      · rw [if_neg (fun hc => hc h1), if_neg (fun hc => hc h2), if_pos h3]
        exact ⟨rfl, rfl, rfl,
          Or.inr ⟨_, rfl, Or.inr (Or.inr (Or.inl ⟨rfl, by simpa using h3⟩))⟩⟩
    · rw [if_neg (fun hc => hc h1), if_pos h2]
      exact ⟨rfl, rfl, rfl,
        Or.inr ⟨_, rfl, Or.inr (Or.inl ⟨rfl, by simpa using h2⟩)⟩⟩
  · rw [if_pos h1]
    exact ⟨rfl, rfl, rfl, Or.inr ⟨_, rfl, Or.inl ⟨rfl, by simpa using h1⟩⟩⟩

/-- Witness for C3: a concrete insert command with all required fields
present but a slash-separated date. -/
theorem c3_insert_bad_date_rejected_witness :
    (¬ (truthy (some "2024/01/13" : Option String) = true ∧
        pyFullMatchDate (pyStrOpt (some "2024/01/13" : Option String)) = true)) ∧
    ((execute_insert sampleUpstream sampleHash
        { action := some "insert", session_id := some "s1",
          order_id := some "ORD88", status_description := some "已到达",
          node_location := some "长沙", occurred_at_str := some "2024/01/13" }).1.getField
        "success" = some (.jbool false) ∧
     (execute_insert sampleUpstream sampleHash
        { action := some "insert", session_id := some "s1",
          order_id := some "ORD88", status_description := some "已到达",
          node_location := some "长沙", occurred_at_str := some "2024/01/13" }).2.1 = [] ∧
     (execute_insert sampleUpstream sampleHash
        { action := some "insert", session_id := some "s1",
          order_id := some "ORD88", status_description := some "已到达",
          node_location := some "长沙", occurred_at_str := some "2024/01/13" }).2.2 = false ∧
     ((execute_insert sampleUpstream sampleHash
        { action := some "insert", session_id := some "s1",
          order_id := some "ORD88", status_description := some "已到达",
          node_location := some "长沙", occurred_at_str := some "2024/01/13" }).1.getField
        "error" = some (.jstr "日期格式错误，应为 yyyy-MM-dd 格式") ∨
      ∃ emsg, (execute_insert sampleUpstream sampleHash
        { action := some "insert", session_id := some "s1",
          order_id := some "ORD88", status_description := some "已到达",
          node_location := some "长沙", occurred_at_str := some "2024/01/13" }).1.getField
        "error" = some (.jstr emsg) ∧
        insertErrorNamesMissingField
          { action := some "insert", session_id := some "s1",
            order_id := some "ORD88", status_description := some "已到达",
            node_location := some "长沙", occurred_at_str := some "2024/01/13" } emsg)) :=
  ⟨by decide, c3_insert_bad_date_rejected sampleUpstream sampleHash _ (by decide)⟩

/-- Claim C9: the insert operation never produces a locally synthesized
node identifier — on every path the hash-based `node_id` construction
in the unreachable tail of `_api_insert_logistics_node` stays dead, and
for every accepted insert command the `data` handed back to the caller
is the external system's parsed JSON response. -/
theorem c9_insert_no_local_node_id (env : UpstreamEnv) (hashFn : String → Int)
    (data : ActionCommand) :
    (execute_insert env hashFn data).2.2 = false ∧
    (truthy data.order_id = true →
     truthy data.status_description = true →
     truthy data.node_location = true →
     truthy data.occurred_at_str = true →
     pyFullMatchDate (pyStrOpt data.occurred_at_str) = true →
       (execute_insert env hashFn data).1.getField "data" = some env.insertResponse ∧
       (execute_insert env hashFn data).2.1 =
         [OutboundCall.insertLogisticsTrackInfo
           (insertPayload data.order_id data.session_id data.status_description
             data.node_location data.occurred_at_str data.operator
             data.vehicle_plate data.remark data.content)]) := by
  unfold execute_insert
  by_cases h1 : truthy data.order_id = true
  · by_cases h2 : truthy data.status_description = true
    · by_cases h3 : truthy data.node_location = true
      · by_cases h4 : truthy data.occurred_at_str = true
        · by_cases h5 : pyFullMatchDate (pyStrOpt data.occurred_at_str) = true
          · rw [if_neg (fun hc => hc h1), if_neg (fun hc => hc h2),
                if_neg (fun hc => hc h3), if_neg (fun hc => hc h4),
                if_neg (fun hc => hc h5)]
            exact ⟨rfl, fun _ _ _ _ _ => ⟨rfl, rfl⟩⟩
          · rw [if_neg (fun hc => hc h1), if_neg (fun hc => hc h2),
                if_neg (fun hc => hc h3), if_neg (fun hc => hc h4), if_pos h5]
            exact ⟨rfl, fun _ _ _ _ hm => absurd hm h5⟩
        · rw [if_neg (fun hc => hc h1), if_neg (fun hc => hc h2),
              if_neg (fun hc => hc h3), if_pos h4]
          exact ⟨rfl, fun _ _ _ hoas _ => absurd hoas h4⟩
      · rw [if_neg (fun hc => hc h1), if_neg (fun hc => hc h2), if_pos h3]
        exact ⟨rfl, fun _ _ hloc _ _ => absurd hloc h3⟩
    · rw [if_neg (fun hc => hc h1), if_pos h2]
      exact ⟨rfl, fun _ hsd _ _ _ => absurd hsd h2⟩
  · rw [if_pos h1]
    exact ⟨rfl, fun hoid _ _ _ _ => absurd hoid h1⟩

/-- Witness for C9: a concrete accepted insert command; the upstream
response is handed back verbatim and no node id is synthesized. -/
theorem c9_insert_no_local_node_id_witness :
    (execute_insert sampleUpstream sampleHash
      { action := some "insert", session_id := some "s1",
        order_id := some "ORD88", status_description := some "已到达",
        node_location := some "长沙", occurred_at_str := some "2024-01-13" }).2.2 = false ∧
    ((execute_insert sampleUpstream sampleHash
      { action := some "insert", session_id := some "s1",
        order_id := some "ORD88", status_description := some "已到达",
        node_location := some "长沙", occurred_at_str := some "2024-01-13" }).1.getField
      "data" = some sampleUpstream.insertResponse ∧
     (execute_insert sampleUpstream sampleHash
      { action := some "insert", session_id := some "s1",
        order_id := some "ORD88", status_description := some "已到达",
        node_location := some "长沙", occurred_at_str := some "2024-01-13" }).2.1 =
       [OutboundCall.insertLogisticsTrackInfo
         (insertPayload (some "ORD88") (some "s1") (some "已到达") (some "长沙")
           (some "2024-01-13") none none none none)]) :=
  ⟨(c9_insert_no_local_node_id sampleUpstream sampleHash _).1,
   (c9_insert_no_local_node_id sampleUpstream sampleHash _).2
     (by decide) (by decide) (by decide) (by decide) (by decide)⟩

/-- Counterexample to C2 as stated: a modify command with the invalid
status `已完成` but no order identifier is rejected with the
missing-identifier error, which does not list the valid statuses
(e.g. `待提货` does not occur in it). -/
theorem c2_counterexample :
    (some "已完成" : Option String) ≠ none ∧
    "已完成" ∉ valid_statuses ∧
    (execute_modify none
      { action := some "modify", session_id := some "s1",
        transport_status_name := some "已完成" }).1.getField "success" =
      some (.jbool false) ∧
    (execute_modify none
      { action := some "modify", session_id := some "s1",
        transport_status_name := some "已完成" }).1.getField "error" =
      some (.jstr "缺少订单标识（order_id 或 order_number）") ∧
    (execute_modify none
      { action := some "modify", session_id := some "s1",
        transport_status_name := some "已完成" }).2 = [] ∧
    ¬ ("待提货".data <:+: "缺少订单标识（order_id 或 order_number）".data) :=
  ⟨by decide, by decide, rfl, rfl, rfl, by decide⟩

/-- Claim C2 (amended): for every modify command whose
`transport_status_name` is not one of the five valid statuses, the
modify handler returns `success=false` and makes no outbound
business-API call; the error lists the valid statuses exactly when an
order identifier and a non-empty `transport_status_name` are present
(otherwise the error names the missing parameter). -/
theorem c2_modify_invalid_status (order_number_arg : Option String)
    (data : ActionCommand)
    (h : ∀ s ∈ valid_statuses, data.transport_status_name ≠ some s) :
    (execute_modify order_number_arg data).1.getField "success" = some (.jbool false) ∧
    (execute_modify order_number_arg data).2 = [] ∧
    ((truthy data.order_id = true ∨
      truthy (if truthy data.order_number then data.order_number else order_number_arg) = true) →
     truthy data.transport_status_name = true →
       (execute_modify order_number_arg data).1.getField "error" =
         some (.jstr "无效的运输状态，可选值: 待提货, 运输中, 已送达, 已回单, 异常滞留")) := by
  unfold execute_modify
  by_cases h1 : ¬ truthy data.order_id = true ∧
      ¬ truthy (if truthy data.order_number then data.order_number else order_number_arg) = true
  · rw [if_pos h1]
    exact ⟨rfl, rfl, fun hid _ => absurd hid (by
      rcases h1 with ⟨ha, hb⟩
      rintro (hc | hc)
      · exact ha hc
      · exact hb hc)⟩
  · by_cases h2 : truthy data.transport_status_name = true
    · have h3 : pyStrOpt data.transport_status_name ∉ valid_statuses := by
        intro hmem
        match hts : data.transport_status_name with
        | none =>
            rw [hts] at hmem
            exact absurd hmem (by decide)
        | some s =>
            rw [hts] at hmem
            exact h s hmem hts
      rw [if_neg h1, if_neg (fun hc => hc h2), if_pos h3]
      exact ⟨rfl, rfl, fun _ _ => rfl⟩
    · rw [if_neg h1, if_pos h2]
      exact ⟨rfl, rfl, fun _ hts => absurd hts h2⟩

/-- Witness for C2 (amended) at a concrete command with an order number
and an invalid status: the error lists the valid statuses. -/
theorem c2_modify_invalid_status_witness :
    (∀ s ∈ valid_statuses,
      (some "已完成" : Option String) ≠ some s) ∧
    ((execute_modify (some "order1234567890")
        { action := some "modify", session_id := some "s1",
          order_number := some "order1234567890",
          transport_status_name := some "已完成" }).1.getField "success" =
      some (.jbool false) ∧
     (execute_modify (some "order1234567890")
        { action := some "modify", session_id := some "s1",
          order_number := some "order1234567890",
          transport_status_name := some "已完成" }).2 = [] ∧
     (execute_modify (some "order1234567890")
        { action := some "modify", session_id := some "s1",
          order_number := some "order1234567890",
          transport_status_name := some "已完成" }).1.getField "error" =
       some (.jstr "无效的运输状态，可选值: 待提货, 运输中, 已送达, 已回单, 异常滞留")) :=
  ⟨by decide,
   (c2_modify_invalid_status (some "order1234567890") _ (by decide)).1,
   (c2_modify_invalid_status (some "order1234567890") _ (by decide)).2.1,
   (c2_modify_invalid_status (some "order1234567890") _ (by decide)).2.2
     (Or.inr (by decide)) (by decide)⟩

/-- Counterexample to C4 as stated: a modify_node command with
`order_id`, `session_id` and `tracking_id` present and `remark` as its
only mutable field (`node_location` null) does not pass validation —
it is rejected with the missing-`node_location` error and no outbound
call is made. -/
theorem c4_counterexample :
    truthy (some "ORD1" : Option String) = true ∧
    truthy (some "加急" : Option String) = true ∧
    (execute_modify_node sampleUpstream
      { action := some "modify_node", order_id := some "ORD1",
        session_id := some "S1", tracking_id := some "TRK1",
        remark := some "加急" }).1.getField "success" = some (.jbool false) ∧
    (execute_modify_node sampleUpstream
      { action := some "modify_node", order_id := some "ORD1",
        session_id := some "S1", tracking_id := some "TRK1",
        remark := some "加急" }).1.getField "error" =
      some (.jstr "缺少发生地点（node_location）") ∧
    (execute_modify_node sampleUpstream
      { action := some "modify_node", order_id := some "ORD1",
        session_id := some "S1", tracking_id := some "TRK1",
        remark := some "加急" }).2 = [] :=
  ⟨by decide, by decide, rfl, rfl, rfl⟩

/-- Claim C4 (amended): the modify_node validation gate requires
`order_id`, `session_id`, `tracking_id` AND `node_location`
(`node_location` is mandatory, not merely one of several mutable
fields); every command with those four present whose
`occurred_at_str`, when truthy, matches the date pattern passes
validation and proceeds to the outbound
`updateLogisticsTrackInfo` call, even when all other mutable fields
are null. -/
theorem c4_modify_node_gate (env : UpstreamEnv) (data : ActionCommand)
    (h1 : truthy data.order_id = true)
    (h2 : truthy data.session_id = true)
    (h3 : truthy data.tracking_id = true)
    (h4 : truthy data.node_location = true)
    (h5 : truthy data.occurred_at_str = true →
          pyFullMatchDate (pyStrOpt data.occurred_at_str) = true) :
    (execute_modify_node env data).2 =
      [OutboundCall.updateLogisticsTrackInfo
        (modifyNodePayload data.order_id data.session_id data.tracking_id
          data.node_location data.status_description data.operator
          data.vehicle_plate data.occurred_at_str data.remark data.content)] ∧
    (execute_modify_node env data).1.getField "success" = some (.jbool true) := by
  unfold execute_modify_node
  rw [if_neg (fun hc => hc h1), if_neg (fun hc => hc h2),
      if_neg (fun hc => hc h3), if_neg (fun hc => hc h4),
      if_neg (fun hc => hc.2 (h5 hc.1))]
  exact ⟨rfl, rfl⟩

/-- Witness for C4 (amended): a concrete command with exactly the four
required fields. -/
theorem c4_modify_node_gate_witness :
    truthy ((some "ORD1" : Option String)) = true ∧
    ((execute_modify_node sampleUpstream
        { action := some "modify_node", order_id := some "ORD1",
          session_id := some "S1", tracking_id := some "TRK1",
          node_location := some "长沙" }).2 =
      [OutboundCall.updateLogisticsTrackInfo
        (modifyNodePayload (some "ORD1") (some "S1") (some "TRK1") (some "长沙")
          none none none none none none)] ∧
     (execute_modify_node sampleUpstream
        { action := some "modify_node", order_id := some "ORD1",
          session_id := some "S1", tracking_id := some "TRK1",
          node_location := some "长沙" }).1.getField "success" =
       some (.jbool true)) :=
  ⟨by decide,
   c4_modify_node_gate sampleUpstream _ (by decide) (by decide) (by decide)
     (by decide) (by decide)⟩

/-- Counterexample to C5 as stated: `remark = ""` is non-null, yet the
outbound modify-node payload omits the `remark` key, because the source
includes optional fields under Python truthiness, not under a null
check. -/
theorem c5_counterexample :
    (some "" : Option String) ≠ none ∧
    jlookup (modifyNodePayload (some "ORD1") (some "S1") (some "TRK1")
      (some "长沙") none none none none (some "") none) "remark" = none :=
  ⟨by decide, rfl⟩

/-- Claim C5 (amended): the outbound modify-node payload always
contains `orderId`, `sessionId`, `id` and `location`; it contains each
optional key exactly when the corresponding command field is truthy
(non-null AND non-empty), and an omitted field's key is absent, not
bound to null. -/
theorem c5_modify_node_payload (order_id session_id tracking_id location
    status_description operator vehicle_plate occurred_at_str remark content :
    Option String) :
    jlookup (modifyNodePayload order_id session_id tracking_id location
        status_description operator vehicle_plate occurred_at_str remark content)
      "orderId" = some (optJ order_id) ∧
    jlookup (modifyNodePayload order_id session_id tracking_id location
        status_description operator vehicle_plate occurred_at_str remark content)
      "sessionId" = some (optJ session_id) ∧
    jlookup (modifyNodePayload order_id session_id tracking_id location
        status_description operator vehicle_plate occurred_at_str remark content)
      "id" = some (optJ tracking_id) ∧
    jlookup (modifyNodePayload order_id session_id tracking_id location
        status_description operator vehicle_plate occurred_at_str remark content)
      "location" = some (optJ location) ∧
    jlookup (modifyNodePayload order_id session_id tracking_id location
        status_description operator vehicle_plate occurred_at_str remark content)
      "statusDescription" =
        (if truthy status_description then some (optJ status_description) else none) ∧
    jlookup (modifyNodePayload order_id session_id tracking_id location
        status_description operator vehicle_plate occurred_at_str remark content)
      "operator" = (if truthy operator then some (optJ operator) else none) ∧
    jlookup (modifyNodePayload order_id session_id tracking_id location
        status_description operator vehicle_plate occurred_at_str remark content)
      "vehiclePlate" = (if truthy vehicle_plate then some (optJ vehicle_plate) else none) ∧
    jlookup (modifyNodePayload order_id session_id tracking_id location
        status_description operator vehicle_plate occurred_at_str remark content)
      "occurredAtStr" = (if truthy occurred_at_str then some (optJ occurred_at_str) else none) ∧
    jlookup (modifyNodePayload order_id session_id tracking_id location
        status_description operator vehicle_plate occurred_at_str remark content)
      "remark" = (if truthy remark then some (optJ remark) else none) ∧
    jlookup (modifyNodePayload order_id session_id tracking_id location
        status_description operator vehicle_plate occurred_at_str remark content)
      "content" = (if truthy content then some (optJ content) else none) := by
  cases hsd : truthy status_description <;> cases hop : truthy operator <;>
    cases hvp : truthy vehicle_plate <;> cases hoas : truthy occurred_at_str <;>
    cases hrm : truthy remark <;> cases hct : truthy content <;>
    simp [modifyNodePayload, jlookup, hsd, hop, hvp, hoas, hrm, hct]

/-- Claim C10: for every modify_node command that passes validation,
the returned result has `success=true`, its `data` and `message` are
built entirely from the command's own field values, and the outcome is
independent of the outbound HTTP response body (which the source never
reads). -/
theorem c10_modify_node_ignores_response (env env' : UpstreamEnv)
    (data : ActionCommand)
    (h1 : truthy data.order_id = true)
    (h2 : truthy data.session_id = true)
    (h3 : truthy data.tracking_id = true)
    (h4 : truthy data.node_location = true)
    (h5 : truthy data.occurred_at_str = true →
          pyFullMatchDate (pyStrOpt data.occurred_at_str) = true) :
    execute_modify_node env data = execute_modify_node env' data ∧
    (execute_modify_node env data).1.getField "success" = some (.jbool true) ∧
    (execute_modify_node env data).1.getField "data" =
      some (modifyNodeSimulated data.order_id data.session_id data.tracking_id
        data.node_location data.status_description data.operator
        data.vehicle_plate data.occurred_at_str data.remark data.content) ∧
    (execute_modify_node env data).1.getField "message" =
      some (.jstr ("物流节点已更新: " ++ pyStrOpt data.node_location)) := by
  refine ⟨rfl, ?_⟩
  unfold execute_modify_node
  rw [if_neg (fun hc => hc h1), if_neg (fun hc => hc h2),
      if_neg (fun hc => hc h3), if_neg (fun hc => hc h4),
      if_neg (fun hc => hc.2 (h5 hc.1))]
  exact ⟨rfl, rfl, rfl⟩

/-- Witness for C10 at a concrete command and two distinct upstream
environments. -/
theorem c10_modify_node_ignores_response_witness :
    truthy ((some "ORD1" : Option String)) = true ∧
    (execute_modify_node sampleUpstream
        { action := some "modify_node", order_id := some "ORD1",
          session_id := some "S1", tracking_id := some "TRK1",
          node_location := some "长沙", remark := some "加急" } =
      execute_modify_node
        { queryResponse := .jnull, insertResponse := .jnull,
          modifyNodeHttpResponse := .jobj [("totally", .jstr "different")] }
        { action := some "modify_node", order_id := some "ORD1",
          session_id := some "S1", tracking_id := some "TRK1",
          node_location := some "长沙", remark := some "加急" } ∧
     (execute_modify_node sampleUpstream
        { action := some "modify_node", order_id := some "ORD1",
          session_id := some "S1", tracking_id := some "TRK1",
          node_location := some "长沙", remark := some "加急" }).1.getField "success" =
       some (.jbool true) ∧
     (execute_modify_node sampleUpstream
        { action := some "modify_node", order_id := some "ORD1",
          session_id := some "S1", tracking_id := some "TRK1",
          node_location := some "长沙", remark := some "加急" }).1.getField "data" =
       some (modifyNodeSimulated (some "ORD1") (some "S1") (some "TRK1")
         (some "长沙") none none none none (some "加急") none) ∧
     (execute_modify_node sampleUpstream
        { action := some "modify_node", order_id := some "ORD1",
          session_id := some "S1", tracking_id := some "TRK1",
          node_location := some "长沙", remark := some "加急" }).1.getField "message" =
       some (.jstr ("物流节点已更新: " ++ pyStrOpt (some "长沙")))) :=
  ⟨by decide,
   c10_modify_node_ignores_response sampleUpstream
     { queryResponse := .jnull, insertResponse := .jnull,
       modifyNodeHttpResponse := .jobj [("totally", .jstr "different")] }
     _ (by decide) (by decide) (by decide) (by decide) (by decide)⟩

/-- The Actor-invocation flag of step 3 is exactly the intent gate. -/
theorem chatStep3_invoked (env : StageEnv) (sid : String) (r : ReasoningResult) :
    (chatStep3 env sid r).2.1 =
      if r.intent.getD "unknown" ∈ chatDispatchIntents then true else false := by
  unfold chatStep3
  by_cases hm : r.intent.getD "unknown" ∈ chatDispatchIntents
  · rw [if_pos hm, if_pos hm]
  · rw [if_neg hm, if_neg hm]

/-- Once perception and reasoning have completed, the Actor-invocation
flag of the whole request equals step 3's, whatever the later stages
do. -/
theorem chatTryBody_invoked (env : StageEnv) (sid : String) (p : JVal)
    (r : ReasoningResult) (hp : env.perceive = Except.ok p)
    (hr : env.reason = Except.ok r) :
    (chatTryBody env sid).actorInvoked = (chatStep3 env sid r).2.1 := by
  unfold chatTryBody
  rw [hp, hr]
  cases env.dialogReply with
  | error e => rfl
  | ok reply =>
      cases env.memoryAddOk with
      | error e => rfl
      | ok u => rfl

/-- A concrete reasoning result asking for clarification. -/
def rClarify : ReasoningResult := { intent := some "clarify", confidence := 1 }

/-- A concrete request environment in which every stage completes. -/
def envC1 : StageEnv :=
  { setup := .ok (), perceive := .ok (.jobj []), reason := .ok rClarify,
    dialogReply := .ok "请提供订单号和目标状态", memoryAddOk := .ok (),
    api := sampleUpstream, hashFn := sampleHash }

/-- Claim C1: on a completed chat request the Action stage is invoked
iff the reasoning intent is one of query/modify/modify_node/insert;
for clarify or unknown no action handler runs and the execution result
stays absent; and the dispatch decision is independent of the
confidence score. -/
theorem c1_dispatch_gate (env : StageEnv) (sid : String) (p : JVal)
    (r : ReasoningResult) (hsetup : env.setup = Except.ok ())
    (hp : env.perceive = Except.ok p) (hr : env.reason = Except.ok r) :
    chat env sid = Except.ok (chatTryBody env sid) ∧
    ((chatTryBody env sid).actorInvoked = true ↔
        r.intent.getD "unknown" ∈ chatDispatchIntents) ∧
    ((r.intent = some "clarify" ∨ r.intent = some "unknown") →
        (chatTryBody env sid).actorInvoked = false ∧
        (chatTryBody env sid).envelope.dataExecution = none) ∧
    (∀ c₁ c₂ : ℚ,
        (chatTryBody { env with reason := Except.ok { r with confidence := c₁ } } sid).actorInvoked =
          (chatTryBody { env with reason := Except.ok { r with confidence := c₂ } } sid).actorInvoked) := by
  refine ⟨by unfold chat; rw [hsetup], ?_, ?_, ?_⟩
  · rw [chatTryBody_invoked env sid p r hp hr, chatStep3_invoked]
    by_cases hm : r.intent.getD "unknown" ∈ chatDispatchIntents
    · simp [hm]
    · simp [hm]
  · intro hcl
    have hm : r.intent.getD "unknown" ∉ chatDispatchIntents := by
      rcases hcl with hcl | hcl <;> rw [hcl] <;> decide
    have hstep : chatStep3 env sid r = (none, false, []) := by
      unfold chatStep3; rw [if_neg hm]
    constructor
    · rw [chatTryBody_invoked env sid p r hp hr, hstep]
    · unfold chatTryBody
      rw [hp, hr]
      cases env.dialogReply with
      | error e => rfl
      | ok reply =>
          cases env.memoryAddOk with
          | error e => rfl
          | ok u =>
              show (chatStep3 env sid r).1 = none
              rw [hstep]
  · intro c₁ c₂
    rw [chatTryBody_invoked { env with reason := Except.ok { r with confidence := c₁ } }
          sid p { r with confidence := c₁ } hp rfl,
        chatTryBody_invoked { env with reason := Except.ok { r with confidence := c₂ } }
          sid p { r with confidence := c₂ } hp rfl,
        chatStep3_invoked, chatStep3_invoked]

/-- Witness for C1 at a concrete clarify-intent request (gate closed,
execution absent, dispatch unchanged across two confidence scores). -/
theorem c1_dispatch_gate_witness :
    chat envC1 "s1" = Except.ok (chatTryBody envC1 "s1") ∧
    ((chatTryBody envC1 "s1").actorInvoked = true ↔
        (rClarify.intent.getD "unknown") ∈ chatDispatchIntents) ∧
    ((chatTryBody envC1 "s1").actorInvoked = false ∧
     (chatTryBody envC1 "s1").envelope.dataExecution = none) ∧
    (chatTryBody { envC1 with reason := Except.ok { rClarify with confidence := 0 } } "s1").actorInvoked =
      (chatTryBody { envC1 with reason := Except.ok { rClarify with confidence := 1 } } "s1").actorInvoked :=
  ⟨(c1_dispatch_gate envC1 "s1" (.jobj []) rClarify rfl rfl rfl).1,
   (c1_dispatch_gate envC1 "s1" (.jobj []) rClarify rfl rfl rfl).2.1,
   (c1_dispatch_gate envC1 "s1" (.jobj []) rClarify rfl rfl rfl).2.2.1 (Or.inl rfl),
   (c1_dispatch_gate envC1 "s1" (.jobj []) rClarify rfl rfl rfl).2.2.2 0 1⟩

/-- A request environment whose pre-`try` setup raises. -/
def envSetupBoom : StageEnv :=
  { setup := .error "boom", perceive := .ok (.jobj []), reason := .ok rClarify,
    dialogReply := .ok "好的", memoryAddOk := .ok (),
    api := sampleUpstream, hashFn := sampleHash }

/-- A request environment whose dialog stage raises. -/
def envDialogBoom : StageEnv :=
  { setup := .ok (), perceive := .ok (.jobj []), reason := .ok rClarify,
    dialogReply := .error "dialog exploded", memoryAddOk := .ok (),
    api := sampleUpstream, hashFn := sampleHash }

/-- Counterexample to C6 as stated: `chat` runs its shared-resource
initialization and studio registration before the `try` block, so an
exception raised there propagates to the caller instead of being
converted into an envelope. -/
theorem c6_counterexample : chat envSetupBoom "s1" = Except.error "boom" := rfl

/-- Claim C6 (amended): provided the pre-`try` setup completes, `chat`
never raises: it returns an envelope, with `success=false` and the
exception's string representation inside the message whenever a
pipeline stage raises, and with `success=true` otherwise. -/
theorem c6_try_block_catches (env : StageEnv) (sid : String)
    (hsetup : env.setup = Except.ok ()) :
    chat env sid = Except.ok (chatTryBody env sid) ∧
    (∀ e, firstStageError env = some e →
       (chatTryBody env sid).envelope.success = false ∧
       ∃ pre, (chatTryBody env sid).envelope.message = pre ++ e) ∧
    (firstStageError env = none →
       (chatTryBody env sid).envelope.success = true) := by
  refine ⟨by unfold chat; rw [hsetup], ?_, ?_⟩
  · intro e he
    unfold chatTryBody
    cases hperc : env.perceive with
    | error e0 =>
        have he0 : e0 = e := by
          unfold firstStageError at he; rw [hperc] at he
          exact Option.some.inj he
        subst he0
        exact ⟨rfl, ⟨_, rfl⟩⟩
    | ok p =>
      cases hreas : env.reason with
      | error e0 =>
          have he0 : e0 = e := by
            unfold firstStageError at he; rw [hperc, hreas] at he
            exact Option.some.inj he
          subst he0
          exact ⟨rfl, ⟨_, rfl⟩⟩
      | ok r =>
        cases hdia : env.dialogReply with
        | error e0 =>
            have he0 : e0 = e := by
              unfold firstStageError at he; rw [hperc, hreas, hdia] at he
              exact Option.some.inj he
            subst he0
            exact ⟨rfl, ⟨_, rfl⟩⟩
        | ok reply =>
          cases hmem : env.memoryAddOk with
          | error e0 =>
              have he0 : e0 = e := by
                unfold firstStageError at he; rw [hperc, hreas, hdia, hmem] at he
                exact Option.some.inj he
              subst he0
              exact ⟨rfl, ⟨_, rfl⟩⟩
          | ok u =>
              exfalso
              unfold firstStageError at he
              rw [hperc, hreas, hdia, hmem] at he
              exact Option.noConfusion he
  · intro hn
    unfold chatTryBody
    cases hperc : env.perceive with
    | error e0 =>
        exfalso
        unfold firstStageError at hn; rw [hperc] at hn
        exact Option.noConfusion hn
    | ok p =>
      cases hreas : env.reason with
      | error e0 =>
          exfalso
          unfold firstStageError at hn; rw [hperc, hreas] at hn
          exact Option.noConfusion hn
      | ok r =>
        cases hdia : env.dialogReply with
        | error e0 =>
            exfalso
            unfold firstStageError at hn; rw [hperc, hreas, hdia] at hn
            exact Option.noConfusion hn
        | ok reply =>
          cases hmem : env.memoryAddOk with
          | error e0 =>
              exfalso
              unfold firstStageError at hn; rw [hperc, hreas, hdia, hmem] at hn
              exact Option.noConfusion hn
          | ok u => rfl

/-- Witness for C6 (amended): a raising dialog stage yields a
`success=false` envelope whose message embeds the exception text, and
an all-ok request yields `success=true`. -/
theorem c6_try_block_catches_witness :
    chat envDialogBoom "s1" = Except.ok (chatTryBody envDialogBoom "s1") ∧
    (chatTryBody envDialogBoom "s1").envelope.success = false ∧
    (∃ pre, (chatTryBody envDialogBoom "s1").envelope.message = pre ++ "dialog exploded") ∧
    (chatTryBody envC1 "s1").envelope.success = true :=
  ⟨(c6_try_block_catches envDialogBoom "s1" rfl).1,
   ((c6_try_block_catches envDialogBoom "s1" rfl).2.1 "dialog exploded" rfl).1,
   ((c6_try_block_catches envDialogBoom "s1" rfl).2.1 "dialog exploded" rfl).2,
   (c6_try_block_catches envC1 "s1" rfl).2.2 rfl⟩

/-- Counterexample to C7 as stated: on a fully completed request only
one message — the assistant reply — is appended to the session memory;
the user's message is not persisted (its `memory.add` is commented out
in the source). -/
theorem c7_counterexample :
    (chat envC1 "s1").map (fun o => o.memoryAppends.map MemMsg.name) =
      Except.ok ["assistant"] ∧
    (chat envC1 "s1").map (fun o => o.memoryAppends.length) = Except.ok 1 :=
  ⟨rfl, rfl⟩

/-- Claim C7 (amended): on a completed request the orchestrator
persists exactly one message — the assistant reply — to the session
memory before returning; on a request that aborts with a stage
exception nothing at all is appended. -/
theorem c7_memory_writes (env : StageEnv) (sid : String) (out : ChatOutcome)
    (hok : chat env sid = Except.ok out) :
    (out.envelope.success = true →
       out.memoryAppends = [⟨"assistant", "assistant", out.envelope.message⟩]) ∧
    (out.envelope.success = false → out.memoryAppends = []) := by
  have hout : out = chatTryBody env sid := by
    unfold chat at hok
    cases hs : env.setup with
    | error e => rw [hs] at hok; exact Except.noConfusion hok
    | ok u => rw [hs] at hok; exact (Except.ok.inj hok).symm
  subst hout
  unfold chatTryBody
  cases env.perceive with
  | error e =>
      exact ⟨fun ht => Bool.noConfusion ht, fun _ => rfl⟩
  | ok p =>
    cases env.reason with
    | error e =>
        exact ⟨fun ht => Bool.noConfusion ht, fun _ => rfl⟩
    | ok r =>
      cases env.dialogReply with
      | error e =>
          exact ⟨fun ht => Bool.noConfusion ht, fun _ => rfl⟩
      | ok reply =>
        cases env.memoryAddOk with
        | error e =>
            exact ⟨fun ht => Bool.noConfusion ht, fun _ => rfl⟩
        | ok u =>
            exact ⟨fun _ => rfl, fun hf => Bool.noConfusion hf⟩

/-- Witness for C7 (amended) at the concrete completed request. -/
theorem c7_memory_writes_witness :
    ((chatTryBody envC1 "s1").envelope.success = true →
       (chatTryBody envC1 "s1").memoryAppends =
         [⟨"assistant", "assistant", (chatTryBody envC1 "s1").envelope.message⟩]) ∧
    ((chatTryBody envC1 "s1").envelope.success = false →
       (chatTryBody envC1 "s1").memoryAppends = []) :=
  c7_memory_writes envC1 "s1" (chatTryBody envC1 "s1") rfl
